import Mathlib

/-!
Verification of the OAuth signin flow of hasura-auth
(src/routes/oauth/index.ts, src/routes/signin/providers/index.ts, and the
PROVIDERS environment configuration).

The development shallowly embeds the two request handlers that matter:

* the initiation middleware chain (`oauthProviders`, lines 34-100 of
  src/routes/oauth/index.ts): express-session, redirect-target capture,
  provider-configuration validation, session save; and
* the callback middleware (lines 111-215): session destruction, profile
  normalisation, and the account-linking decision logic against the user
  store.

The user store (GraphQL mutations/queries) is modelled relationally as lists
of rows; functions of the repository that are not among the provided sources
(`normaliseProfile`, `getUserByEmail`, `insertUser`, `transformOauthProfile`,
`generateRedirectUrl`, `sendError`, the ./config module) are modelled from the
specification and carry a doc comment saying so.  Fallibility of data-store
mutations is made explicit through boolean oracles in `DbBehavior`.
-/

namespace HasuraAuth

/-- A raw provider profile as carried inside the grant response
(`response.profile` in the callback, line 128).  The mandatory canonical
field is the id; email and display name are optional. -/
structure RawProfile where
  id : Option String
  email : Option String
  displayName : Option String
deriving DecidableEq, Repr

/-- The grant engine's response object: `response.profile`,
`response.access_token`, `response.refresh_token`, `response.jwt`
(lines 123, 128, 136-140). -/
structure OauthResponse where
  profile : Option RawProfile
  access_token : Option String
  refresh_token : Option String
  jwt : Option String
deriving DecidableEq, Repr

/-- The `grant` object the protocol engine leaves in the session:
`grant.provider` and `grant.response` (lines 123-124).  Either field may be
absent on a malformed or abandoned handshake. -/
structure GrantData where
  provider : Option String
  response : Option OauthResponse
deriving DecidableEq, Repr

/-- Registration options, saved verbatim from the query string into the
session (line 90: `session.options = query`). -/
abbrev Options := List (String × String)

/-- The handshake session contents the callback destructures at line 112:
`const \x7b grant, options, redirectTo = ENV.AUTH_CLIENT_URL \x7d = \x7b ...session \x7d`. -/
structure SessionData where
  grant : Option GrantData
  options : Options
  redirectTo : Option String
deriving DecidableEq, Repr

/-- A user row of the external user store.  Only the fields the oauth flow
reads are modelled: the id (used for the link and the refresh token) and the
email (used by the email-fallback lookup). -/
structure User where
  id : String
  email : Option String
deriving DecidableEq, Repr

/-- An `authUserProviders` row: the durable link between a local user and one
external identity on one provider. -/
structure AuthUserProvider where
  id : String
  userId : String
  providerId : String
  providerUserId : String
  accessToken : Option String
  refreshToken : Option String
deriving DecidableEq, Repr

/-- The user store, modelled relationally. -/
structure DB where
  users : List User
  userProviders : List AuthUserProvider
deriving DecidableEq, Repr

/-- The process environment read by the callback (`ENV.AUTH_CLIENT_URL`,
line 112). -/
structure Env where
  AUTH_CLIENT_URL : String
deriving DecidableEq, Repr

/-- Behaviour of the external collaborators during one callback: whether each
data-store mutation fails, the fresh ids the store would assign, and the
application refresh token minted by `getNewRefreshToken` (line 203). -/
structure DbBehavior where
  linkInsertFails : Bool
  userInsertFails : Bool
  freshLinkId : String
  freshUserId : String
  newRefreshToken : String → String

/-- Observable side effects of the callback, in program order. -/
inductive Effect
  | destroySession
  | clearCookie
  | logWarnNoProfile
  | consoleLogTokens
  | lookupLink (providerId providerUserId : String)
  | updateLink (id : String)
  | emailLookup (email : Option String)
  | insertLink
  | insertUserWithLink
  | logWarnLinkFailed
deriving DecidableEq, Repr

/-- The terminal redirect produced by the flow: either the success redirect
of line 205 or an error redirect carrying an error code (and, on the final
branch of lines 208-214, a provider name and description). -/
inductive Outcome
  | success (redirectTo refreshToken : String)
  | errorRedirect (redirectTo error : String)
      (provider : Option String) (errorDescription : Option String)
deriving DecidableEq, Repr

/-- The base URL of a redirect outcome (the part before the appended query
parameters). -/
def Outcome.base : Outcome → String
  | .success rt _ => rt
  | .errorRedirect rt _ _ _ => rt

/-- The error code a redirect outcome carries, if any. -/
def Outcome.errorCode : Outcome → Option String
  | .success _ _ => none
  | .errorRedirect _ e _ _ => some e

/-- How one callback run terminates: with a redirect, or — when an awaited
call throws and no handler catches it — with an unhandled exception. -/
inductive CallbackResult
  | redirect (o : Outcome)
  | unhandledException (message : String)
deriving DecidableEq, Repr

/-- The error code carried by a terminal redirect, if the run produced one. -/
def resultErrorCode : CallbackResult → Option String
  | .redirect o => o.errorCode
  | .unhandledException _ => none

/-- Modelled from the spec: `generateRedirectUrl` (@/utils, not among the
provided sources) appends the given query parameters to the base url. -/
def generateRedirectUrl (redirectTo : String) (params : List (String × String)) : String :=
  redirectTo ++ "?" ++ String.intercalate "&" (params.map (fun p => p.1 ++ "=" ++ p.2))

/-- Modelled from the spec: `sendError` (@/errors, not among the provided
sources) with the redirect flag set issues a redirect to the given target
carrying the error code as a query parameter. -/
def sendErrorRedirect (redirectTo : String) (error : String) : Outcome :=
  Outcome.errorRedirect redirectTo error none none

/-- The final URL of a redirect outcome: the success branch uses the template
string of line 205, the error branches go through `generateRedirectUrl`. -/
def finalUrl : Outcome → String
  | .success rt tok => rt ++ "?refreshToken=" ++ tok
  | .errorRedirect rt err prov desc =>
      generateRedirectUrl rt
        ([("error", err)]
          ++ (match prov with | some p => [("provider", p)] | none => [])
          ++ (match desc with | some d => [("errorDescription", d)] | none => []))

/-- The four error codes the specification allows on a redirect. -/
def specErrorCodes : List String :=
  ["disabled-endpoint", "invalid-oauth-configuration", "invalid-request", "internal-error"]

/-- JavaScript `||` on two strings: the first operand unless it is falsy
(the empty string), mirroring `'error' || 'invalid-request'` at line 210. -/
def jsOrStr (a b : String) : String := if a = "" then b else a

/-- The canonical profile produced by normalisation. -/
structure NormalisedProfile where
  id : String
  email : Option String
  displayName : Option String
deriving DecidableEq, Repr

/-- Modelled from the spec: `normaliseProfile` (./utils, not among the
provided sources) maps the raw provider payload of the grant response to the
canonical profile.  The mandatory field is the id, whose absence makes
normalisation fail with `profile-missing`; email and display name are
optional.  In JavaScript the failure is a thrown exception. -/
def normaliseProfile (provider : String) (response : OauthResponse) :
    Except String NormalisedProfile :=
  match response.profile with
  | none => Except.error "profile-missing"
  | some raw =>
      match raw.id with
      | none => Except.error "profile-missing"
      | some i => Except.ok { id := i, email := raw.email, displayName := raw.displayName }

/-- Modelled from the spec: `getUserByEmail` (@/utils, not among the provided
sources) looks a user up by email as the linking fallback; an absent email
matches no user. -/
def getUserByEmail (email : Option String) (db : DB) : Option User :=
  match email with
  | none => none
  | some e => db.users.find? (fun u => u.email = some e)

/-- The new-user input built by `transformOauthProfile`. -/
structure UserInput where
  email : Option String
  displayName : Option String
  options : Options
deriving DecidableEq, Repr

/-- Modelled from the spec: `transformOauthProfile` (./utils, not among the
provided sources) constructs the new-user input from the canonical profile
plus the registration options saved at initiation. -/
def transformOauthProfile (profile : NormalisedProfile) (options : Options) : UserInput :=
  { email := profile.email, displayName := profile.displayName, options := options }

/-- The `authUserProviders` GraphQL query of lines 146-151: the rows whose
(providerId, providerUserId) pair matches, each joined with its (non-nullable
in the GraphQL schema) user object. -/
def authUserProvidersQuery (db : DB) (provider providerUserId : String) :
    List (AuthUserProvider × User) :=
  (db.userProviders.filter
      (fun l => l.providerId = provider && l.providerUserId = providerUserId)).filterMap
    (fun l => (db.users.find? (fun u => u.id = l.userId)).map (fun u => (l, u)))

/-- The `updateAuthUserprovider` mutation of lines 156-162: refresh the stored
tokens of the link with the given id. -/
def updateAuthUserprovider (db : DB) (id : String)
    (accessToken refreshToken : Option String) : DB :=
  { db with
    userProviders := db.userProviders.map
      (fun l => if l.id = id then
        { l with accessToken := accessToken, refreshToken := refreshToken } else l) }

/-- The `insertUserProviderToUser` mutation of lines 167-176: append the new
link row, or fail (returning nothing, which the handler checks at line 178). -/
def insertUserProviderToUser (db : DB) (fails : Bool) (link : AuthUserProvider) :
    Option (AuthUserProvider × DB) :=
  if fails then none
  else some (link, { db with userProviders := db.userProviders ++ [link] })

/-- Modelled from the spec: `insertUser` (@/utils, not among the provided
sources) creates the user together with its first provider link in one
logical operation, or fails returning nothing (the handler's `user` variable
then stays null, line 202). -/
def insertUser (db : DB) (fails : Bool) (newUser : User) (link : AuthUserProvider) :
    Option (User × DB) :=
  if fails then none
  else some (newUser, { db with
    users := db.users ++ [newUser],
    userProviders := db.userProviders ++ [link] })

/-- Everything one callback run produces: the terminal result, the user store
after the run, and the trace of observable effects in program order. -/
structure CallbackOutput where
  result : CallbackResult
  db : DB
  trace : List Effect
deriving Repr

/-- The account-linking decision logic of lines 145-214: look the link up by
(provider, providerUserId); if found update its tokens and take its user;
otherwise fall back to the email lookup; otherwise create user and link in
one insert.  The shared tail (`if (user)` success redirect of lines 202-205,
and the placeholder error branch of lines 207-214) is inlined per branch. -/
def accountLinking (dbB : DbBehavior) (db : DB) (redirectTo prov : String)
    (profile : NormalisedProfile) (options : Options)
    (accessToken refreshToken : Option String) :
    CallbackResult × DB × List Effect :=
  let providerUserId := profile.id
  match (authUserProvidersQuery db prov providerUserId).head? with
  | some lu =>
      -- lines 153-162: the link exists; update its tokens, user := the link's user
      (CallbackResult.redirect
          (Outcome.success redirectTo (dbB.newRefreshToken lu.2.id)),
        updateAuthUserprovider db lu.1.id accessToken refreshToken,
        [Effect.lookupLink prov providerUserId, Effect.updateLink lu.1.id])
  | none =>
      match getUserByEmail profile.email db with
      | some u =>
          -- lines 164-181: add this provider to the existing user with the same email
          let link : AuthUserProvider :=
            { id := dbB.freshLinkId, userId := u.id, providerId := prov,
              providerUserId := providerUserId, accessToken := accessToken,
              refreshToken := refreshToken }
          match insertUserProviderToUser db dbB.linkInsertFails link with
          | none =>
              (CallbackResult.redirect (sendErrorRedirect redirectTo "internal-error"), db,
                [Effect.lookupLink prov providerUserId, Effect.emailLookup profile.email,
                  Effect.insertLink, Effect.logWarnLinkFailed])
          | some r =>
              (CallbackResult.redirect
                  (Outcome.success redirectTo (dbB.newRefreshToken u.id)), r.2,
                [Effect.lookupLink prov providerUserId, Effect.emailLookup profile.email,
                  Effect.insertLink])
      | none =>
          -- lines 182-199: no user with this email; create a new user with its link
          let userInput := transformOauthProfile profile options
          let newUser : User := { id := dbB.freshUserId, email := userInput.email }
          let link : AuthUserProvider :=
            { id := dbB.freshLinkId, userId := dbB.freshUserId, providerId := prov,
              providerUserId := providerUserId, accessToken := accessToken,
              refreshToken := refreshToken }
          match insertUser db dbB.userInsertFails newUser link with
          | none =>
              -- user stayed null: the final branch of lines 207-214, with its
              -- literal placeholder short-circuits
              (CallbackResult.redirect
                  (Outcome.errorRedirect redirectTo (jsOrStr "error" "invalid-request")
                    (some prov) (some (jsOrStr "error_description" "OAuth request cancelled"))),
                db,
                [Effect.lookupLink prov providerUserId, Effect.emailLookup profile.email,
                  Effect.insertUserWithLink])
          | some r =>
              (CallbackResult.redirect
                  (Outcome.success redirectTo (dbB.newRefreshToken r.1.id)), r.2,
                [Effect.lookupLink prov providerUserId, Effect.emailLookup profile.email,
                  Effect.insertUserWithLink])

/-- The callback middleware of lines 111-215.  The session is destroyed and
its cookie cleared first (lines 113-121), before any check; a missing grant
response or provider (JavaScript-falsy, so an absent value or the empty
string) yields `internal-error` (lines 123-127); an absent profile yields a
warning and `internal-error` (lines 128-131); normalisation failure is not
caught at the call site (line 132) and so surfaces as an unhandled
exception; otherwise account linking runs. -/
def callback (env : Env) (dbB : DbBehavior) (db : DB) (session : SessionData) :
    CallbackOutput :=
  let redirectTo := session.redirectTo.getD env.AUTH_CLIENT_URL
  let destroyed : List Effect := [Effect.destroySession, Effect.clearCookie]
  match session.grant with
  | none =>
      ⟨CallbackResult.redirect (sendErrorRedirect redirectTo "internal-error"), db, destroyed⟩
  | some g =>
      match g.response, g.provider with
      | some resp, some prov =>
          if prov = "" then
            ⟨CallbackResult.redirect (sendErrorRedirect redirectTo "internal-error"), db,
              destroyed⟩
          else
            match resp.profile with
            | none =>
                ⟨CallbackResult.redirect (sendErrorRedirect redirectTo "internal-error"), db,
                  destroyed ++ [Effect.logWarnNoProfile]⟩
            | some _ =>
                match normaliseProfile prov resp with
                | Except.error msg => ⟨CallbackResult.unhandledException msg, db, destroyed⟩
                | Except.ok profile =>
                    let step := accountLinking dbB db redirectTo prov profile session.options
                      resp.access_token resp.refresh_token
                    ⟨step.1, step.2.1, destroyed ++ [Effect.consoleLogTokens] ++ step.2.2⟩
      | _, _ =>
          ⟨CallbackResult.redirect (sendErrorRedirect redirectTo "internal-error"), db,
            destroyed⟩

/-- A grant-format provider configuration entry (`config[provider]` with its
`client_id` and `client_secret`, lines 59-65). -/
structure GrantProviderConfig where
  client_id : String
  client_secret : String
deriving DecidableEq, Repr

/-- Per-provider environment settings, following the PROVIDERS object: an
enable flag and the credential strings (empty when the variable is unset,
as castStringEnv defaults to the empty string). -/
structure ProviderEnvConfig where
  enabled : Bool
  clientId : String
  clientSecret : String
deriving DecidableEq, Repr

/-- Modelled from the spec and the PROVIDERS object: the ./config module (not
among the provided sources) exposes a grant config entry only for known,
enabled providers — a provider whose enable flag is false yields no entry,
exactly like an unknown name. -/
def resolveProvider (providers : String → Option ProviderEnvConfig) (name : String) :
    Option GrantProviderConfig :=
  match providers name with
  | none => none
  | some p => if p.enabled then some ⟨p.clientId, p.clientSecret⟩ else none

/-- Outcome of the initiation middleware chain before the grant engine. -/
inductive InitOutcome
  | errorRedirect (redirectTo error : String)
  | proceed
deriving DecidableEq, Repr

/-- The provider-validation middleware of lines 57-75: no config entry yields
`disabled-endpoint`; a falsy (empty) client id or secret yields
`invalid-oauth-configuration`; otherwise control proceeds. -/
def validateProviderConfig (config : String → Option GrantProviderConfig)
    (provider redirectTo : String) : InitOutcome :=
  match config provider with
  | none => InitOutcome.errorRedirect redirectTo "disabled-endpoint"
  | some pc =>
      if pc.client_id = "" || pc.client_secret = "" then
        InitOutcome.errorRedirect redirectTo "invalid-oauth-configuration"
      else InitOutcome.proceed

/-- Models the express-session cookie rule for the options of lines 34-43: a
brand-new session gets its cookie set when saveUninitialized is on or the
session was modified; an existing session's cookie is not re-set (rolling is
off by default). -/
def sessionCookieSet (saveUninitialized isNewSession modified : Bool) : Bool :=
  isNewSession && (saveUninitialized || modified)

/-- The response of one initiation request as far as the provided sources
determine it: the middleware outcome and whether a session cookie is set on
the response.  The route configures saveUninitialized to true (line 38), and
the session is only modified by the save middleware of lines 87-94, which
runs only when validation proceeds. -/
structure InitiationResult where
  outcome : InitOutcome
  cookieSet : Bool
deriving DecidableEq, Repr

/-- One initiation request through the chain of lines 34-94. -/
def initiation (config : String → Option GrantProviderConfig)
    (provider redirectTo : String) (isNewSession : Bool) : InitiationResult :=
  let out := validateProviderConfig config provider redirectTo
  let modified : Bool := match out with | InitOutcome.proceed => true | _ => false
  ⟨out, sessionCookieSet true isNewSession modified⟩

/-- The session-save middleware of lines 87-94: store the query and the
redirect target in the session. -/
def saveSession (query : Options) (redirectTo : String) : SessionData :=
  { grant := none, options := query, redirectTo := some redirectTo }

/-- The grant engine attaches its result to the session before the callback
middleware runs. -/
def attachGrant (s : SessionData) (g : GrantData) : SessionData :=
  { s with grant := some g }

/-! ### Helper lemmas -/

/-- Every run of the callback, whatever its outcome, starts by destroying the
session and clearing its cookie. -/
theorem callback_trace_take_two (env : Env) (dbB : DbBehavior) (db : DB)
    (sess : SessionData) :
    (callback env dbB db sess).trace.take 2 =
      [Effect.destroySession, Effect.clearCookie] := by
  obtain ⟨g?, opts, rt?⟩ := sess
  unfold callback
  cases g? with
  | none => rfl
  | some g =>
      obtain ⟨prov?, resp?⟩ := g
      cases resp? with
      | none => rfl
      | some resp =>
          cases prov? with
          | none => rfl
          | some prov =>
              by_cases h : prov = ""
              · subst h; rfl
              · simp only [if_neg h]
                cases resp.profile with
                | none => rfl
                | some raw =>
                    cases hn : normaliseProfile prov resp with
                    | error m => rfl
                    | ok p => rfl

/-- Every redirect outcome produced by the account-linking logic has the
handed-in redirect target as its base. -/
theorem accountLinking_base (dbB : DbBehavior) (db : DB) (rt prov : String)
    (profile : NormalisedProfile) (opts : Options) (a r : Option String) (o : Outcome)
    (h : (accountLinking dbB db rt prov profile opts a r).1 = CallbackResult.redirect o) :
    o.base = rt := by
  simp only [accountLinking] at h
  cases hq : (authUserProvidersQuery db prov profile.id).head? with
  | some lu =>
      rw [hq] at h
      simp only at h
      injection h with h
      subst h
      rfl
  | none =>
      rw [hq] at h
      cases he : getUserByEmail profile.email db with
      | some u =>
          rw [he] at h
          simp only [insertUserProviderToUser] at h
          cases hf : dbB.linkInsertFails with
          | true => rw [hf] at h; simp only [if_pos rfl] at h; injection h with h; subst h; rfl
          | false => rw [hf] at h; simp only [if_neg Bool.false_ne_true] at h;
                     injection h with h; subst h; rfl
      | none =>
          rw [he] at h
          simp only [insertUser] at h
          cases hf : dbB.userInsertFails with
          | true => rw [hf] at h; simp only [if_pos rfl] at h; injection h with h; subst h; rfl
          | false => rw [hf] at h; simp only [if_neg Bool.false_ne_true] at h;
                     injection h with h; subst h; rfl

/-- Every redirect the callback issues uses the session's redirect target —
falling back to the configured client URL — as its base. -/
theorem callback_redirect_base (env : Env) (dbB : DbBehavior) (db : DB)
    (sess : SessionData) (o : Outcome)
    (h : (callback env dbB db sess).result = CallbackResult.redirect o) :
    o.base = sess.redirectTo.getD env.AUTH_CLIENT_URL := by
  obtain ⟨g?, opts, rt?⟩ := sess
  unfold callback at h
  cases g? with
  | none => injection h with h; subst h; rfl
  | some g =>
      obtain ⟨prov?, resp?⟩ := g
      cases resp? with
      | none => injection h with h; subst h; rfl
      | some resp =>
          cases prov? with
          | none => injection h with h; subst h; rfl
          | some prov =>
              by_cases hpv : prov = ""
              · simp only [hpv, if_pos rfl] at h
                injection h with h; subst h; rfl
              · simp only [if_neg hpv] at h
                cases hpp : resp.profile with
                | none =>
                    rw [hpp] at h
                    injection h with h; subst h; rfl
                | some raw =>
                    rw [hpp] at h
                    cases hn : normaliseProfile prov resp with
                    | error m => rw [hn] at h; exact absurd h (by simp)
                    | ok p =>
                        rw [hn] at h
                        exact accountLinking_base dbB db _ prov p opts
                          resp.access_token resp.refresh_token o h

/-- Every redirect outcome renders as its base followed by a question mark and
a query string. -/
theorem finalUrl_base (o : Outcome) : ∃ qs, finalUrl o = o.base ++ "?" ++ qs := by
  cases o with
  | success rt tok =>
      refine ⟨"refreshToken=" ++ tok, ?_⟩
      show rt ++ "?refreshToken=" ++ tok = rt ++ "?" ++ ("refreshToken=" ++ tok)
      rw [← String.append_assoc, String.append_assoc rt "?" "refreshToken="]
      rfl
  | errorRedirect rt err prov desc => exact ⟨_, rfl⟩

/-! ### Concrete fixtures used by the witnesses and counterexamples -/

def cEnv : Env := ⟨"https://client.example"⟩

def cDbB : DbBehavior := ⟨false, false, "link-fresh", "user-fresh", fun _ => "app-refresh"⟩

def cDb0 : DB := ⟨[], []⟩

/-! ### Claims -/

/-- C1: when the protocol result carries a present response but an absent
profile, the callback terminates in an internal-error redirect while the
session has been destroyed and its cookie cleared; and more generally every
run of the callback destroys the session and clears the cookie first, before
any branch can fail. -/
theorem callback_destroys_before_errors
    (env : Env) (dbB : DbBehavior) (db : DB) (sess : SessionData)
    (g : GrantData) (resp : OauthResponse)
    (hg : sess.grant = some g) (hr : g.response = some resp) (hp : resp.profile = none) :
    (callback env dbB db sess).result =
      CallbackResult.redirect
        (sendErrorRedirect (sess.redirectTo.getD env.AUTH_CLIENT_URL) "internal-error")
    ∧ (callback env dbB db sess).trace.take 2 =
        [Effect.destroySession, Effect.clearCookie]
    ∧ ∀ s2 : SessionData,
        (callback env dbB db s2).trace.take 2 =
          [Effect.destroySession, Effect.clearCookie] := by
  refine ⟨?_, callback_trace_take_two env dbB db sess,
    fun s2 => callback_trace_take_two env dbB db s2⟩
  obtain ⟨g?, opts, rt?⟩ := sess
  simp only at hg
  subst hg
  obtain ⟨prov?, resp?⟩ := g
  simp only at hr
  subst hr
  unfold callback
  cases prov? with
  | none => rfl
  | some prov =>
      by_cases h : prov = ""
      · subst h; rfl
      · simp only [if_neg h, hp]

def cSessNoProfile : SessionData :=
  ⟨some ⟨some "github", some ⟨none, some "at", some "rt", none⟩⟩, [],
    some "https://app.example/finish"⟩

theorem callback_destroys_before_errors_witness :
    (callback cEnv cDbB cDb0 cSessNoProfile).result =
      CallbackResult.redirect
        (sendErrorRedirect "https://app.example/finish" "internal-error")
    ∧ (callback cEnv cDbB cDb0 cSessNoProfile).trace.take 2 =
        [Effect.destroySession, Effect.clearCookie] := by
  have h := callback_destroys_before_errors cEnv cDbB cDb0 cSessNoProfile
    ⟨some "github", some ⟨none, some "at", some "rt", none⟩⟩
    ⟨none, some "at", some "rt", none⟩ rfl rfl rfl
  exact ⟨h.1, h.2.1⟩

/-- C2: when the canonical profile's (providerId, providerUserId) pair matches
an existing link, the callback updates that link's stored tokens, resolves the
target user to the link's user, creates no new user and no new link, and never
consults the email lookup. -/
theorem callback_link_match_updates_tokens
    (env : Env) (dbB : DbBehavior) (db : DB) (opts : Options) (rt? : Option String)
    (resp : OauthResponse) (prov : String) (profile : NormalisedProfile)
    (lu : AuthUserProvider × User)
    (hprov : prov ≠ "")
    (hnorm : normaliseProfile prov resp = Except.ok profile)
    (hlink : (authUserProvidersQuery db prov profile.id).head? = some lu) :
    (callback env dbB db ⟨some ⟨some prov, some resp⟩, opts, rt?⟩).result =
      CallbackResult.redirect
        (Outcome.success (rt?.getD env.AUTH_CLIENT_URL) (dbB.newRefreshToken lu.2.id))
    ∧ (callback env dbB db ⟨some ⟨some prov, some resp⟩, opts, rt?⟩).db =
        updateAuthUserprovider db lu.1.id resp.access_token resp.refresh_token
    ∧ (callback env dbB db ⟨some ⟨some prov, some resp⟩, opts, rt?⟩).db.users = db.users
    ∧ (callback env dbB db ⟨some ⟨some prov, some resp⟩, opts, rt?⟩).db.userProviders.length
        = db.userProviders.length
    ∧ (∀ e, Effect.emailLookup e ∉
        (callback env dbB db ⟨some ⟨some prov, some resp⟩, opts, rt?⟩).trace)
    ∧ Effect.insertLink ∉
        (callback env dbB db ⟨some ⟨some prov, some resp⟩, opts, rt?⟩).trace
    ∧ Effect.insertUserWithLink ∉
        (callback env dbB db ⟨some ⟨some prov, some resp⟩, opts, rt?⟩).trace := by
  have hps : ∃ raw, resp.profile = some raw := by
    cases hpp : resp.profile with
    | none =>
        unfold normaliseProfile at hnorm
        rw [hpp] at hnorm
        exact Except.noConfusion hnorm
    | some raw => exact ⟨raw, rfl⟩
  obtain ⟨raw, hraw⟩ := hps
  have hcb : callback env dbB db ⟨some ⟨some prov, some resp⟩, opts, rt?⟩ =
      ⟨CallbackResult.redirect
          (Outcome.success (rt?.getD env.AUTH_CLIENT_URL) (dbB.newRefreshToken lu.2.id)),
        updateAuthUserprovider db lu.1.id resp.access_token resp.refresh_token,
        [Effect.destroySession, Effect.clearCookie, Effect.consoleLogTokens,
          Effect.lookupLink prov profile.id, Effect.updateLink lu.1.id]⟩ := by
    unfold callback
    simp only [if_neg hprov, hraw, hnorm]
    simp only [accountLinking, hlink]
    rfl
  rw [hcb]
  refine ⟨rfl, rfl, rfl, by simp [updateAuthUserprovider], fun e => by simp, by simp, by simp⟩

def cLinkedUser : User := ⟨"user-1", some "linked@example.com"⟩

def cLink : AuthUserProvider :=
  ⟨"link-1", "user-1", "github", "gh-42", some "old-at", some "old-rt"⟩

def cDbLinked : DB := ⟨[cLinkedUser], [cLink]⟩

def cRespLinked : OauthResponse :=
  ⟨some ⟨some "gh-42", some "linked@example.com", none⟩, some "new-at", some "new-rt", none⟩

theorem callback_link_match_updates_tokens_witness :
    (callback cEnv cDbB cDbLinked
        ⟨some ⟨some "github", some cRespLinked⟩, [], some "https://app.example/finish"⟩).result =
      CallbackResult.redirect (Outcome.success "https://app.example/finish" "app-refresh")
    ∧ (callback cEnv cDbB cDbLinked
        ⟨some ⟨some "github", some cRespLinked⟩, [], some "https://app.example/finish"⟩).db.users =
        cDbLinked.users := by
  have h := callback_link_match_updates_tokens cEnv cDbB cDbLinked []
    (some "https://app.example/finish") cRespLinked "github"
    ⟨"gh-42", some "linked@example.com", none⟩ (cLink, cLinkedUser)
    (by decide) rfl rfl
  exact ⟨h.1, h.2.2.1⟩

/-- C3: when the profile matches no existing link but its email matches an
existing user, the callback creates exactly one new link attached to that
user — carrying the new identity's tokens — and creates no new user record. -/
theorem callback_email_match_creates_link
    (env : Env) (dbB : DbBehavior) (db : DB) (opts : Options) (rt? : Option String)
    (resp : OauthResponse) (prov : String) (profile : NormalisedProfile) (u : User)
    (hprov : prov ≠ "")
    (hnorm : normaliseProfile prov resp = Except.ok profile)
    (hlink : (authUserProvidersQuery db prov profile.id).head? = none)
    (hemail : getUserByEmail profile.email db = some u)
    (hok : dbB.linkInsertFails = false) :
    (callback env dbB db ⟨some ⟨some prov, some resp⟩, opts, rt?⟩).result =
      CallbackResult.redirect
        (Outcome.success (rt?.getD env.AUTH_CLIENT_URL) (dbB.newRefreshToken u.id))
    ∧ (callback env dbB db ⟨some ⟨some prov, some resp⟩, opts, rt?⟩).db.users = db.users
    ∧ (callback env dbB db ⟨some ⟨some prov, some resp⟩, opts, rt?⟩).db.userProviders =
        db.userProviders ++
          [⟨dbB.freshLinkId, u.id, prov, profile.id, resp.access_token, resp.refresh_token⟩]
    ∧ Effect.insertLink ∈
        (callback env dbB db ⟨some ⟨some prov, some resp⟩, opts, rt?⟩).trace
    ∧ Effect.insertUserWithLink ∉
        (callback env dbB db ⟨some ⟨some prov, some resp⟩, opts, rt?⟩).trace := by
  have hps : ∃ raw, resp.profile = some raw := by
    cases hpp : resp.profile with
    | none =>
        unfold normaliseProfile at hnorm
        rw [hpp] at hnorm
        exact Except.noConfusion hnorm
    | some raw => exact ⟨raw, rfl⟩
  obtain ⟨raw, hraw⟩ := hps
  have hcb : callback env dbB db ⟨some ⟨some prov, some resp⟩, opts, rt?⟩ =
      ⟨CallbackResult.redirect
          (Outcome.success (rt?.getD env.AUTH_CLIENT_URL) (dbB.newRefreshToken u.id)),
        { db with userProviders := db.userProviders ++
            [⟨dbB.freshLinkId, u.id, prov, profile.id, resp.access_token, resp.refresh_token⟩] },
        [Effect.destroySession, Effect.clearCookie, Effect.consoleLogTokens,
          Effect.lookupLink prov profile.id, Effect.emailLookup profile.email,
          Effect.insertLink]⟩ := by
    unfold callback
    simp only [if_neg hprov, hraw, hnorm]
    simp only [accountLinking, hlink, hemail, hok]
    rfl
  rw [hcb]
  refine ⟨rfl, rfl, rfl, by simp, by simp⟩

def cUserByEmail : User := ⟨"user-2", some "match@example.com"⟩

def cDbEmail : DB := ⟨[cUserByEmail], []⟩

def cRespEmail : OauthResponse :=
  ⟨some ⟨some "gl-7", some "match@example.com", none⟩, some "at-3", some "rt-3", none⟩

theorem callback_email_match_creates_link_witness :
    (callback cEnv cDbB cDbEmail
        ⟨some ⟨some "gitlab", some cRespEmail⟩, [], some "https://app.example/finish"⟩).db.users =
      cDbEmail.users
    ∧ (callback cEnv cDbB cDbEmail
        ⟨some ⟨some "gitlab", some cRespEmail⟩, [], some "https://app.example/finish"⟩).db.userProviders =
      [⟨"link-fresh", "user-2", "gitlab", "gl-7", some "at-3", some "rt-3"⟩] := by
  have h := callback_email_match_creates_link cEnv cDbB cDbEmail []
    (some "https://app.example/finish") cRespEmail "gitlab"
    ⟨"gl-7", some "match@example.com", none⟩ cUserByEmail
    (by decide) rfl rfl rfl rfl
  exact ⟨h.2.1, h.2.2.1⟩

/-- C4: when the profile matches no existing link and its email matches no
existing user, the callback creates exactly one new user together with exactly
one new provider link, in the single logical insert of `insertUser`. -/
theorem callback_no_match_creates_user_and_link
    (env : Env) (dbB : DbBehavior) (db : DB) (opts : Options) (rt? : Option String)
    (resp : OauthResponse) (prov : String) (profile : NormalisedProfile)
    (hprov : prov ≠ "")
    (hnorm : normaliseProfile prov resp = Except.ok profile)
    (hlink : (authUserProvidersQuery db prov profile.id).head? = none)
    (hemail : getUserByEmail profile.email db = none)
    (hok : dbB.userInsertFails = false) :
    (callback env dbB db ⟨some ⟨some prov, some resp⟩, opts, rt?⟩).result =
      CallbackResult.redirect
        (Outcome.success (rt?.getD env.AUTH_CLIENT_URL) (dbB.newRefreshToken dbB.freshUserId))
    ∧ (callback env dbB db ⟨some ⟨some prov, some resp⟩, opts, rt?⟩).db.users =
        db.users ++ [⟨dbB.freshUserId, profile.email⟩]
    ∧ (callback env dbB db ⟨some ⟨some prov, some resp⟩, opts, rt?⟩).db.userProviders =
        db.userProviders ++
          [⟨dbB.freshLinkId, dbB.freshUserId, prov, profile.id,
            resp.access_token, resp.refresh_token⟩]
    ∧ Effect.insertUserWithLink ∈
        (callback env dbB db ⟨some ⟨some prov, some resp⟩, opts, rt?⟩).trace
    ∧ Effect.insertLink ∉
        (callback env dbB db ⟨some ⟨some prov, some resp⟩, opts, rt?⟩).trace := by
  have hps : ∃ raw, resp.profile = some raw := by
    cases hpp : resp.profile with
    | none =>
        unfold normaliseProfile at hnorm
        rw [hpp] at hnorm
        exact Except.noConfusion hnorm
    | some raw => exact ⟨raw, rfl⟩
  obtain ⟨raw, hraw⟩ := hps
  have hcb : callback env dbB db ⟨some ⟨some prov, some resp⟩, opts, rt?⟩ =
      ⟨CallbackResult.redirect
          (Outcome.success (rt?.getD env.AUTH_CLIENT_URL) (dbB.newRefreshToken dbB.freshUserId)),
        { db with
            users := db.users ++ [⟨dbB.freshUserId, profile.email⟩],
            userProviders := db.userProviders ++
              [⟨dbB.freshLinkId, dbB.freshUserId, prov, profile.id,
                resp.access_token, resp.refresh_token⟩] },
        [Effect.destroySession, Effect.clearCookie, Effect.consoleLogTokens,
          Effect.lookupLink prov profile.id, Effect.emailLookup profile.email,
          Effect.insertUserWithLink]⟩ := by
    unfold callback
    simp only [if_neg hprov, hraw, hnorm]
    simp only [accountLinking, hlink, hemail, hok]
    rfl
  rw [hcb]
  refine ⟨rfl, rfl, rfl, by simp, by simp⟩

def cRespNew : OauthResponse :=
  ⟨some ⟨some "gg-1", some "new@example.com", none⟩, some "at-4", some "rt-4", none⟩

theorem callback_no_match_creates_user_and_link_witness :
    (callback cEnv cDbB cDb0
        ⟨some ⟨some "google", some cRespNew⟩, [], some "https://app.example/finish"⟩).db.users =
      [⟨"user-fresh", some "new@example.com"⟩]
    ∧ (callback cEnv cDbB cDb0
        ⟨some ⟨some "google", some cRespNew⟩, [], some "https://app.example/finish"⟩).db.userProviders =
      [⟨"link-fresh", "user-fresh", "google", "gg-1", some "at-4", some "rt-4"⟩] := by
  have h := callback_no_match_creates_user_and_link cEnv cDbB cDb0 []
    (some "https://app.example/finish") cRespNew "google"
    ⟨"gg-1", some "new@example.com", none⟩
    (by decide) rfl rfl rfl rfl
  exact ⟨h.2.1, h.2.2.1⟩

def cDbBUserFail : DbBehavior :=
  ⟨false, true, "link-fresh", "user-fresh", fun _ => "app-refresh"⟩

def cDbBLinkFail : DbBehavior :=
  ⟨true, false, "link-fresh", "user-fresh", fun _ => "app-refresh"⟩

/-- C5 (code-bug evidence): a failed link insert is surfaced as an
internal-error redirect as the claim says, but a failed user insert falls
through to the unfinished final branch of lines 207-214, whose short-circuit
`jsOrStr "error" "invalid-request"` surfaces the literal placeholder code
"error" instead of "internal-error". -/
theorem callback_creation_failure_codes :
    (callback cEnv cDbBLinkFail cDbEmail
        ⟨some ⟨some "gitlab", some cRespEmail⟩, [], some "https://app.example/finish"⟩).result =
      CallbackResult.redirect (sendErrorRedirect "https://app.example/finish" "internal-error")
    ∧ (callback cEnv cDbBUserFail cDb0
        ⟨some ⟨some "github", some cRespNew⟩, [], some "https://app.example/finish"⟩).result =
      CallbackResult.redirect
        (Outcome.errorRedirect "https://app.example/finish" "error" (some "github")
          (some "error_description"))
    ∧ "error" ≠ "internal-error" := by
  refine ⟨rfl, rfl, by decide⟩

def cRespTw : OauthResponse :=
  ⟨some ⟨some "tw-9", none, none⟩, some "at-5", none, none⟩

/-- C6 (code-bug evidence): the redirect issued when user creation fails
carries the error code "error", which lies outside the specified four-value
taxonomy of `specErrorCodes`. -/
theorem callback_error_code_outside_taxonomy :
    resultErrorCode (callback cEnv cDbBUserFail cDb0
        ⟨some ⟨some "twitter", some cRespTw⟩, [], some "https://app.example/finish"⟩).result =
      some "error"
    ∧ "error" ∉ specErrorCodes := by
  refine ⟨rfl, by decide⟩

def cRespNoId : OauthResponse :=
  ⟨some ⟨none, some "x@example.com", none⟩, some "at-6", none, none⟩

/-- C7 counterexample: on a response whose profile is present but misses the
mandatory id, normalisation fails and — there being no handler at the call
site — the run ends in an unhandled exception, not an internal-error
redirect. -/
theorem callback_normalise_failure_uncaught :
    (callback cEnv cDbB cDb0
        ⟨some ⟨some "github", some cRespNoId⟩, [], some "https://app.example/finish"⟩).result =
      CallbackResult.unhandledException "profile-missing"
    ∧ resultErrorCode (callback cEnv cDbB cDb0
        ⟨some ⟨some "github", some cRespNoId⟩, [], some "https://app.example/finish"⟩).result =
      none := by
  exact ⟨rfl, rfl⟩

/-- C7 (amended): when the protocol response carries no profile object at all,
the callback terminates in an internal-error redirect and logs a warning; but
when normalisation of a present profile fails (the mandatory id is missing),
the failure propagates out of the handler as an unhandled exception. -/
theorem callback_profile_failure_modes
    (env : Env) (dbB : DbBehavior) (db : DB) (opts : Options) (rt? : Option String)
    (resp : OauthResponse) (prov : String) (hprov : prov ≠ "") :
    (resp.profile = none →
      (callback env dbB db ⟨some ⟨some prov, some resp⟩, opts, rt?⟩).result =
        CallbackResult.redirect
          (sendErrorRedirect (rt?.getD env.AUTH_CLIENT_URL) "internal-error")
      ∧ Effect.logWarnNoProfile ∈
          (callback env dbB db ⟨some ⟨some prov, some resp⟩, opts, rt?⟩).trace)
    ∧ (∀ raw, resp.profile = some raw → raw.id = none →
      (callback env dbB db ⟨some ⟨some prov, some resp⟩, opts, rt?⟩).result =
        CallbackResult.unhandledException "profile-missing") := by
  constructor
  · intro hp
    have hcb : callback env dbB db ⟨some ⟨some prov, some resp⟩, opts, rt?⟩ =
        ⟨CallbackResult.redirect
            (sendErrorRedirect (rt?.getD env.AUTH_CLIENT_URL) "internal-error"), db,
          [Effect.destroySession, Effect.clearCookie, Effect.logWarnNoProfile]⟩ := by
      unfold callback
      simp only [if_neg hprov, hp]
      rfl
    rw [hcb]
    exact ⟨rfl, by simp⟩
  · intro raw hp hid
    have hn : normaliseProfile prov resp = Except.error "profile-missing" := by
      simp only [normaliseProfile, hp, hid]
    unfold callback
    simp only [if_neg hprov, hp, hn]

theorem callback_profile_failure_modes_witness :
    (callback cEnv cDbB cDb0
        ⟨some ⟨some "discord", some ⟨none, some "at", none, none⟩⟩, [],
          some "https://app.example/finish"⟩).result =
      CallbackResult.redirect (sendErrorRedirect "https://app.example/finish" "internal-error")
    ∧ (callback cEnv cDbB cDb0
        ⟨some ⟨some "discord", some ⟨some ⟨none, none, none⟩, some "at", none, none⟩⟩, [],
          some "https://app.example/finish"⟩).result =
      CallbackResult.unhandledException "profile-missing" := by
  refine ⟨((callback_profile_failure_modes cEnv cDbB cDb0 []
      (some "https://app.example/finish") ⟨none, some "at", none, none⟩ "discord"
      (by decide)).1 rfl).1, ?_⟩
  exact (callback_profile_failure_modes cEnv cDbB cDb0 []
      (some "https://app.example/finish") ⟨some ⟨none, none, none⟩, some "at", none, none⟩
      "discord" (by decide)).2 ⟨none, none, none⟩ rfl rfl

def cProviders : String → Option ProviderEnvConfig := fun name =>
  if name = "github" then some ⟨true, "gh-id", "gh-secret"⟩
  else if name = "twitch" then some ⟨false, "tw-id", "tw-secret"⟩
  else none

/-- C8 counterexample: a disabled provider's initiation request does produce
the disabled-endpoint redirect, but — the session middleware being configured
to save uninitialized sessions — a session cookie IS set on that response,
contrary to the claim. -/
theorem initiation_disabled_sets_cookie :
    (initiation (resolveProvider cProviders) "twitch" "https://app.example/finish" true).outcome =
      InitOutcome.errorRedirect "https://app.example/finish" "disabled-endpoint"
    ∧ (initiation (resolveProvider cProviders) "twitch" "https://app.example/finish"
        true).cookieSet = true := by
  exact ⟨rfl, rfl⟩

/-- C8 (amended): for provider names absent from the configuration or with the
enable flag off — the two cases treated identically — initiation responds with
a disabled-endpoint error redirect to the caller's redirect target; a session
cookie is set on that response exactly when the request arrived without an
existing session, because the session middleware saves uninitialized
sessions. -/
theorem initiation_disabled_endpoint
    (providers : String → Option ProviderEnvConfig) (name rt : String) (isNew : Bool)
    (h : providers name = none ∨ ∃ p, providers name = some p ∧ p.enabled = false) :
    (initiation (resolveProvider providers) name rt isNew).outcome =
      InitOutcome.errorRedirect rt "disabled-endpoint"
    ∧ (initiation (resolveProvider providers) name rt isNew).cookieSet = isNew := by
  have hres : resolveProvider providers name = none := by
    cases h with
    | inl h => simp [resolveProvider, h]
    | inr h => obtain ⟨p, hp, hd⟩ := h; simp [resolveProvider, hp, hd]
  constructor
  · simp [initiation, validateProviderConfig, hres]
  · simp [initiation, validateProviderConfig, hres, sessionCookieSet]

theorem initiation_disabled_endpoint_witness :
    (initiation (resolveProvider cProviders) "nope" "https://app.example/finish" true).outcome =
      InitOutcome.errorRedirect "https://app.example/finish" "disabled-endpoint"
    ∧ (initiation (resolveProvider cProviders) "nope" "https://app.example/finish"
        true).cookieSet = true := by
  exact initiation_disabled_endpoint cProviders "nope" "https://app.example/finish" true
    (Or.inl rfl)

/-- C9: the redirect target supplied at initiation and saved in the session by
the save middleware reappears as the base of the final redirect the callback
issues — on success and on failure alike — changed only by an appended query
string. -/
theorem callback_round_trip
    (env : Env) (dbB : DbBehavior) (db : DB) (query : Options) (rt : String)
    (g : GrantData) (o : Outcome)
    (h : (callback env dbB db (attachGrant (saveSession query rt) g)).result =
      CallbackResult.redirect o) :
    o.base = rt ∧ ∃ qs, finalUrl o = rt ++ "?" ++ qs := by
  have hb := callback_redirect_base env dbB db (attachGrant (saveSession query rt) g) o h
  have hbase : o.base = rt := by simpa [attachGrant, saveSession] using hb
  refine ⟨hbase, ?_⟩
  obtain ⟨qs, hq⟩ := finalUrl_base o
  exact ⟨qs, by rw [hq, hbase]⟩

theorem callback_round_trip_witness :
    (Outcome.errorRedirect "https://app.example/finish" "internal-error" none none).base =
      "https://app.example/finish"
    ∧ ∃ qs, finalUrl
        (Outcome.errorRedirect "https://app.example/finish" "internal-error" none none) =
        "https://app.example/finish" ++ "?" ++ qs := by
  exact callback_round_trip cEnv cDbB cDb0 [] "https://app.example/finish" ⟨none, none⟩
    (Outcome.errorRedirect "https://app.example/finish" "internal-error" none none) rfl

/-- C10: when the session carries no redirect target, the callback does not
fail: it falls back to the configured client URL as the base of whatever
redirect — success or error — it issues. -/
theorem callback_missing_redirect_falls_back
    (env : Env) (dbB : DbBehavior) (db : DB) (g? : Option GrantData) (opts : Options)
    (o : Outcome)
    (h : (callback env dbB db ⟨g?, opts, none⟩).result = CallbackResult.redirect o) :
    o.base = env.AUTH_CLIENT_URL := by
  simpa using callback_redirect_base env dbB db ⟨g?, opts, none⟩ o h

theorem callback_missing_redirect_falls_back_witness :
    (Outcome.errorRedirect "https://client.example" "internal-error" none none).base =
      "https://client.example" := by
  exact callback_missing_redirect_falls_back cEnv cDbB cDb0 none []
    (Outcome.errorRedirect "https://client.example" "internal-error" none none) rfl

end HasuraAuth
